import Mathlib

/-!
Shallow embedding of the tinyman v2 pool quote engine (`tinyman/v2/pools.py`)
and a verification of the specification's claims about it.

The repository ships only `pools.py`; the helper modules it imports
(`formulas.py`, `quotes.py`, `assets.py`, `utils.py`) are not part of the
sources.  Definitions for those are modelled from the specification and say so
in their doc comments; everything else is translated directly from
`pools.py`.  Network access (`AlgodClient`), transaction construction and
contract-address derivation are outside the engine per the spec and are not
modelled; the snapshot the network would return is passed explicitly as an
`Option PoolInfo` argument (`none` models the empty result for an
unbootstrapped pool).
-/

namespace TinymanV2

/-- An asset identity.  Per the spec, two assets are equal iff their numeric
ids are equal; display metadata is irrelevant to amounts, so only the id is
modelled. -/
structure Asset where
  id : Nat
deriving DecidableEq, Repr

/-- An integer amount tagged with its asset (`tinyman.assets.AssetAmount`).
Python integers are unbounded, so the amount is an `Int`. -/
structure AssetAmount where
  asset : Asset
  amount : Int
deriving DecidableEq, Repr

/-- The decoded pool snapshot returned by the snapshot source
(`get_pool_info` / `get_pool_info_from_account_info`).  The oracle byte
fields, the derived address and the validator app id are not needed by any
claim and are omitted.  `pool_token_asset_id` is an `Option` because
`Pool.update_from_info` branches on it being `None`. -/
structure PoolInfo where
  asset_1_id : Nat
  asset_2_id : Nat
  pool_token_asset_id : Option Nat
  asset_1_reserves : Nat
  asset_2_reserves : Nat
  issued_pool_tokens : Nat
  asset_1_protocol_fees : Nat
  asset_2_protocol_fees : Nat
  total_fee_share : Nat
  protocol_fee_ratio : Nat
  round : Nat
  algo_balance : Nat
deriving DecidableEq, Repr

/-- The mutable state of `Pool` (class `Pool`, `pools.py`).  Fields that the
constructor initialises to `None` are `Option Nat`; the `exists` flag starts
as `None` and is only ever set to `True`, so it is modelled as a `Bool`
(`false` covers both `None` and `False`, matching Python truthiness in
`if not self.exists`).  The field is named `pool_exists` because `exists` is
reserved in Lean. -/
structure Pool where
  asset_1 : Asset
  asset_2 : Asset
  pool_exists : Bool
  pool_token_asset : Option Asset
  asset_1_reserves : Option Nat
  asset_2_reserves : Option Nat
  issued_pool_tokens : Option Nat
  asset_1_protocol_fees : Option Nat
  asset_2_protocol_fees : Option Nat
  total_fee_share : Option Nat
  protocol_fee_ratio : Option Nat
  last_refreshed_round : Option Nat
  algo_balance : Option Nat
deriving DecidableEq, Repr

/-- The asset-pair canonicalisation and field initialisation performed by
`Pool.__init__` with `fetch=False, info=None`: the pair is ordered so that
`asset_1.id > asset_2.id`, every snapshot field starts empty.
`client.fetch_asset` (asset registry, external) resolves an id to the asset
with that id. -/
def Pool.make (asset_a asset_b : Asset) : Pool :=
  if asset_a.id > asset_b.id then
    { asset_1 := asset_a, asset_2 := asset_b, pool_exists := false,
      pool_token_asset := none, asset_1_reserves := none,
      asset_2_reserves := none, issued_pool_tokens := none,
      asset_1_protocol_fees := none, asset_2_protocol_fees := none,
      total_fee_share := none, protocol_fee_ratio := none,
      last_refreshed_round := none, algo_balance := none }
  else
    { asset_1 := asset_b, asset_2 := asset_a, pool_exists := false,
      pool_token_asset := none, asset_1_reserves := none,
      asset_2_reserves := none, issued_pool_tokens := none,
      asset_1_protocol_fees := none, asset_2_protocol_fees := none,
      total_fee_share := none, protocol_fee_ratio := none,
      last_refreshed_round := none, algo_balance := none }

/-- `Pool.update_from_info`: overwrites every snapshot field from the decoded
info; `exists` is set to `True` only when `pool_token_asset_id` is not `None`
(and otherwise left as it was).  `client.fetch_asset` (external registry) is
modelled as resolving an id to the asset with that id. -/
def Pool.update_from_info (p : Pool) (info : PoolInfo) : Pool :=
  { p with
    pool_exists := if info.pool_token_asset_id.isSome then true else p.pool_exists,
    pool_token_asset := info.pool_token_asset_id.map (fun i => { id := i }),
    asset_1_reserves := some info.asset_1_reserves,
    asset_2_reserves := some info.asset_2_reserves,
    issued_pool_tokens := some info.issued_pool_tokens,
    asset_1_protocol_fees := some info.asset_1_protocol_fees,
    asset_2_protocol_fees := some info.asset_2_protocol_fees,
    total_fee_share := some info.total_fee_share,
    protocol_fee_ratio := some info.protocol_fee_ratio,
    last_refreshed_round := some info.round,
    algo_balance := some info.algo_balance }

/-- `Pool.refresh`: the snapshot source's answer is passed as `info`;
`none` models the empty dict (`if not info: return`), in which case the
pool is left untouched, otherwise the whole snapshot is replaced via
`update_from_info`. -/
def Pool.refresh (p : Pool) (info : Option PoolInfo) : Pool :=
  match info with
  | none => p
  | some i => p.update_from_info i

/-- The error outcomes that can abort a quote computation.
`bootstrapIsRequired`, `poolHasNoLiquidity`, `poolAlreadyHasLiquidity` and
`alreadyBootstrapped` embed the exception classes of the same names;
`assetMismatchAssertion` and `assertionFailure` embed failing `assert`
statements; `raisedFalse` embeds the statement `raise False` on the dead
fallthrough path of `fetch_fixed_input_swap_quote` (in Python a `TypeError`,
since `False` is not an exception); `divisionByZero` embeds Python's
`ZeroDivisionError`; `insufficientLiquidity` embeds the spec's
insufficient-liquidity failure of the fixed-output swap formula. -/
inductive PoolsError where
  | bootstrapIsRequired
  | poolHasNoLiquidity
  | poolAlreadyHasLiquidity
  | alreadyBootstrapped
  | assetMismatchAssertion
  | assertionFailure
  | raisedFalse
  | divisionByZero
  | insufficientLiquidity
deriving DecidableEq, Repr

/-- Modelled from the spec: `calculate_fixed_input_swap` lives in the
formulas module, which is not under src.  Spec 4.2, fixed-input swap: the fee
is deducted from the input first, then
`output = floor(output_supply * input_after_fee / (input_supply + input_after_fee))`;
fee rates are parts-per-thousand fixed-point fractions (spec 3 and 8, where
`total_fee_share = 3` is 0.3 percent); the price impact is the fractional
deviation between the executed average price `output/input` and the pre-trade
spot price `output_supply/input_supply`.  Divisions that pay the participant
round down (`Int.fdiv` is floor division, matching Python).  Returns
`(output_amount, total_fee_amount, price_impact)`. -/
def calculate_fixed_input_swap (input_supply output_supply swap_input_amount
    total_fee_share : Int) : Int × Int × Rat :=
  let total_fee_amount := Int.fdiv (swap_input_amount * total_fee_share) 1000
  let swap_amount := swap_input_amount - total_fee_amount
  let swap_output_amount := Int.fdiv (output_supply * swap_amount) (input_supply + swap_amount)
  let price_impact : Rat :=
    if swap_input_amount = 0 ∨ output_supply = 0 then 0
    else 1 - ((swap_output_amount : Rat) * (input_supply : Rat)) /
      ((swap_input_amount : Rat) * (output_supply : Rat))
  (swap_output_amount, total_fee_amount, price_impact)

/-- Modelled from the spec: `calculate_remove_liquidity_output_amounts`
(formulas module, not under src).  Spec 4.2, proportional remove:
`out_i = floor(reserves_i * burn_amount / issued_tokens)`, no fee; with
`issued_tokens = 0` the division is undefined and raises Python's
`ZeroDivisionError` (spec 7, ArithmeticError taxonomy). -/
def calculate_remove_liquidity_output_amounts (pool_token_asset_amount
    asset_1_reserves asset_2_reserves issued_pool_tokens : Int) :
    Except PoolsError (Int × Int) :=
  if issued_pool_tokens = 0 then .error .divisionByZero
  else .ok (Int.fdiv (asset_1_reserves * pool_token_asset_amount) issued_pool_tokens,
            Int.fdiv (asset_2_reserves * pool_token_asset_amount) issued_pool_tokens)

/-- Modelled from the spec: `calculate_subsequent_add_liquidity` (formulas
module, not under src).  Spec 4.2: the excess of whichever asset is
over-supplied relative to the reserve ratio is routed through an internal
fixed-input swap (with its fee) to bring the contribution back into ratio,
and tokens are minted proportional to
`issued_tokens * contributed_value / total_reserve_value` using the post-swap
balanced contribution.  The spec does not pin down the exact solver that
brings the contribution back into ratio; this model routes half of the raw
excess through the swap, which is immaterial to the claims proved here (they
only relate call sites that pass identical arguments).  Returns
`(minted, swap_from_asset_1_to_asset_2, swap_in, swap_out, swap_total_fee,
price_impact)`. -/
def calculate_subsequent_add_liquidity (asset_1_reserves asset_2_reserves
    issued_pool_tokens total_fee_share asset_1_amount asset_2_amount : Int) :
    Int × Bool × Int × Int × Int × Rat :=
  if asset_2_amount * asset_1_reserves ≤ asset_1_amount * asset_2_reserves then
    let excess := asset_1_amount - Int.fdiv (asset_2_amount * asset_1_reserves) asset_2_reserves
    let swap_in := Int.fdiv excess 2
    let r := calculate_fixed_input_swap asset_1_reserves asset_2_reserves swap_in total_fee_share
    let minted := Int.fdiv (issued_pool_tokens * (asset_1_amount - swap_in))
      (asset_1_reserves + swap_in)
    (minted, true, swap_in, r.1, r.2.1, r.2.2)
  else
    let excess := asset_2_amount - Int.fdiv (asset_1_amount * asset_2_reserves) asset_1_reserves
    let swap_in := Int.fdiv excess 2
    let r := calculate_fixed_input_swap asset_2_reserves asset_1_reserves swap_in total_fee_share
    let minted := Int.fdiv (issued_pool_tokens * (asset_2_amount - swap_in))
      (asset_2_reserves + swap_in)
    (minted, false, swap_in, r.1, r.2.1, r.2.2)

/-- Ceiling division on integers (`-fdiv(-a, b)`), used where the spec's
rounding policy says a division owed to the pool rounds up. -/
def ceil_div (a b : Int) : Int := -(Int.fdiv (-a) b)

/-- Modelled from the spec: `calculate_fixed_output_swap` (formulas module,
not under src).  Spec 4.2, fixed-output swap: the pre-fee input required to
keep the invariant intact is
`required = ceil(input_supply * output_amount / (output_supply - output_amount))`,
grossed up by the parts-per-thousand fee so the participant's net
contribution after the fee equals `required`; divisions owed to the pool
round up per the rounding policy; the computation fails with
insufficient-liquidity when `output_amount >= output_supply`.  The price
impact is the fractional deviation between the executed average price and
the pre-trade spot price, as for the fixed-input swap.  Returns
`(input_amount, total_fee_amount, price_impact)`. -/
def calculate_fixed_output_swap (input_supply output_supply swap_output_amount
    total_fee_share : Int) : Except PoolsError (Int × Int × Rat) :=
  if swap_output_amount ≥ output_supply then .error .insufficientLiquidity
  else
    let required := ceil_div (input_supply * swap_output_amount)
      (output_supply - swap_output_amount)
    let swap_input_amount := ceil_div (required * 1000) (1000 - total_fee_share)
    let total_fee_amount := swap_input_amount - required
    let price_impact : Rat :=
      if swap_input_amount = 0 ∨ output_supply = 0 then 0
      else 1 - ((swap_output_amount : Rat) * (input_supply : Rat)) /
        ((swap_input_amount : Rat) * (output_supply : Rat))
    .ok (swap_input_amount, total_fee_amount, price_impact)

/-- Modelled from the spec: `calculate_initial_add_liquidity` (formulas
module, not under src).  Spec 4.2, initial mint: the mint amount is the
integer square root of the product of the two deposited amounts (geometric
mean), no fee. -/
def calculate_initial_add_liquidity (asset_1_amount asset_2_amount : Int) : Int :=
  Int.ofNat (Nat.sqrt (asset_1_amount * asset_2_amount).toNat)

/-- The sub-quote for the internal swap leg of a non-proportional add or
remove (`tinyman.v2.quotes.InternalSwapQuote`). -/
structure InternalSwapQuote where
  amount_in : AssetAmount
  amount_out : AssetAmount
  swap_fees : AssetAmount
  price_impact : Rat
deriving DecidableEq, Repr

/-- `FlexibleAddLiquidityQuote`.  The source stores `amounts_in` as a dict
keyed by the two pool assets; following the spec's data-model note it is
modelled as the two slots in canonical order. -/
structure FlexibleAddLiquidityQuote where
  asset_1_amount_in : AssetAmount
  asset_2_amount_in : AssetAmount
  pool_token_asset_amount : AssetAmount
  slippage : Rat
  internal_swap_quote : InternalSwapQuote
deriving DecidableEq, Repr

/-- `SingleAssetAddLiquidityQuote`. -/
structure SingleAssetAddLiquidityQuote where
  amount_in : AssetAmount
  pool_token_asset_amount : AssetAmount
  slippage : Rat
  internal_swap_quote : InternalSwapQuote
deriving DecidableEq, Repr

/-- `InitialAddLiquidityQuote`.  The `amounts_in` dict is modelled as the
two slots in canonical order; the source constructs it without a slippage
parameter (no reference price exists yet). -/
structure InitialAddLiquidityQuote where
  asset_1_amount_in : AssetAmount
  asset_2_amount_in : AssetAmount
  pool_token_asset_amount : AssetAmount
deriving DecidableEq, Repr

/-- `RemoveLiquidityQuote`.  The `amounts_out` dict is modelled as the two
slots in canonical order. -/
structure RemoveLiquidityQuote where
  asset_1_amount_out : AssetAmount
  asset_2_amount_out : AssetAmount
  pool_token_asset_amount : AssetAmount
  slippage : Rat
deriving DecidableEq, Repr

/-- `SingleAssetRemoveLiquidityQuote`. -/
structure SingleAssetRemoveLiquidityQuote where
  amount_out : AssetAmount
  pool_token_asset_amount : AssetAmount
  slippage : Rat
  internal_swap_quote : InternalSwapQuote
deriving DecidableEq, Repr

/-- The `swap_type` tag of a `SwapQuote` (the strings "fixed-input" and
"fixed-output" in the source). -/
inductive SwapType where
  | fixedInput
  | fixedOutput
deriving DecidableEq, Repr

/-- `SwapQuote`. -/
structure SwapQuote where
  swap_type : SwapType
  amount_in : AssetAmount
  amount_out : AssetAmount
  swap_fees : AssetAmount
  slippage : Rat
  price_impact : Rat
deriving DecidableEq, Repr

/-- The `InternalSwapQuote` construction that `fetch_flexible_add_liquidity_quote`
and `fetch_single_asset_add_liquidity_quote` both perform verbatim on the
tuple returned by `calculate_subsequent_add_liquidity`. -/
def internal_swap_quote_of (p : Pool) (swap_from_asset_1_to_asset_2 : Bool)
    (swap_in_amount swap_out_amount swap_total_fee_amount : Int)
    (swap_price_impact : Rat) : InternalSwapQuote :=
  { amount_in := { asset := if swap_from_asset_1_to_asset_2 then p.asset_1 else p.asset_2,
                   amount := swap_in_amount },
    amount_out := { asset := if swap_from_asset_1_to_asset_2 then p.asset_2 else p.asset_1,
                    amount := swap_out_amount },
    swap_fees := { asset := if swap_from_asset_1_to_asset_2 then p.asset_1 else p.asset_2,
                   amount := swap_total_fee_amount },
    price_impact := swap_price_impact }

/-- `Pool.fetch_flexible_add_liquidity_quote`: asset-pair assertion on the
inputs, then refresh, then the existence and liquidity preconditions, then
`calculate_subsequent_add_liquidity`, then the quote.  The Python set
comparison of the two asset pairs is embedded as a `Finset` equality. -/
def Pool.fetch_flexible_add_liquidity_quote (p : Pool) (info : Option PoolInfo)
    (amount_a amount_b : AssetAmount) (slippage : Rat) :
    Except PoolsError FlexibleAddLiquidityQuote :=
  if ({amount_a.asset, amount_b.asset} : Finset Asset) ≠ {p.asset_1, p.asset_2} then
    .error .assetMismatchAssertion
  else
    let amount_1 := if amount_a.asset = p.asset_1 then amount_a else amount_b
    let amount_2 := if amount_a.asset = p.asset_2 then amount_a else amount_b
    let p' := p.refresh info
    if !p'.pool_exists then .error .bootstrapIsRequired
    else if p'.issued_pool_tokens.getD 0 = 0 then .error .poolHasNoLiquidity
    else
      let r := calculate_subsequent_add_liquidity (p'.asset_1_reserves.getD 0 : Int)
        (p'.asset_2_reserves.getD 0 : Int) (p'.issued_pool_tokens.getD 0 : Int)
        (p'.total_fee_share.getD 0 : Int) amount_1.amount amount_2.amount
      .ok { asset_1_amount_in := amount_1,
            asset_2_amount_in := amount_2,
            pool_token_asset_amount :=
              { asset := p'.pool_token_asset.getD { id := 0 }, amount := r.1 },
            slippage := slippage,
            internal_swap_quote := internal_swap_quote_of p'
              r.2.1 r.2.2.1 r.2.2.2.1 r.2.2.2.2.1 r.2.2.2.2.2 }

/-- `Pool.fetch_single_asset_add_liquidity_quote`: refresh, the existence and
liquidity preconditions, then `calculate_subsequent_add_liquidity` with the
other side's amount set to 0 according to which pool asset the input carries;
an input in neither pool asset hits `assert False`. -/
def Pool.fetch_single_asset_add_liquidity_quote (p : Pool) (info : Option PoolInfo)
    (amount_a : AssetAmount) (slippage : Rat) :
    Except PoolsError SingleAssetAddLiquidityQuote :=
  let p' := p.refresh info
  if !p'.pool_exists then .error .bootstrapIsRequired
  else if p'.issued_pool_tokens.getD 0 = 0 then .error .poolHasNoLiquidity
  else
    let calc_result :=
      if amount_a.asset = p'.asset_1 then
        some (calculate_subsequent_add_liquidity (p'.asset_1_reserves.getD 0 : Int)
          (p'.asset_2_reserves.getD 0 : Int) (p'.issued_pool_tokens.getD 0 : Int)
          (p'.total_fee_share.getD 0 : Int) amount_a.amount 0)
      else if amount_a.asset = p'.asset_2 then
        some (calculate_subsequent_add_liquidity (p'.asset_1_reserves.getD 0 : Int)
          (p'.asset_2_reserves.getD 0 : Int) (p'.issued_pool_tokens.getD 0 : Int)
          (p'.total_fee_share.getD 0 : Int) 0 amount_a.amount)
      else none
    match calc_result with
    | none => .error .assertionFailure
    | some r =>
      .ok { amount_in := amount_a,
            pool_token_asset_amount :=
              { asset := p'.pool_token_asset.getD { id := 0 }, amount := r.1 },
            slippage := slippage,
            internal_swap_quote := internal_swap_quote_of p'
              r.2.1 r.2.2.1 r.2.2.2.1 r.2.2.2.2.1 r.2.2.2.2.2 }

/-- `Pool.fetch_remove_liquidity_quote`: note that the existence precondition
is evaluated on the pre-refresh state, then the pool is refreshed, then
`calculate_remove_liquidity_output_amounts` runs on the refreshed snapshot.
There is no liquidity precondition; with zero issued tokens the proportional
division itself fails. -/
def Pool.fetch_remove_liquidity_quote (p : Pool) (info : Option PoolInfo)
    (pool_token_asset_in : AssetAmount) (slippage : Rat) :
    Except PoolsError RemoveLiquidityQuote :=
  if !p.pool_exists then .error .bootstrapIsRequired
  else
    let p' := p.refresh info
    match calculate_remove_liquidity_output_amounts pool_token_asset_in.amount
        (p'.asset_1_reserves.getD 0 : Int) (p'.asset_2_reserves.getD 0 : Int)
        (p'.issued_pool_tokens.getD 0 : Int) with
    | .error e => .error e
    | .ok (asset_1_output_amount, asset_2_output_amount) =>
      .ok { asset_1_amount_out := { asset := p'.asset_1, amount := asset_1_output_amount },
            asset_2_amount_out := { asset := p'.asset_2, amount := asset_2_output_amount },
            pool_token_asset_amount := pool_token_asset_in,
            slippage := slippage }

/-- `Pool.fetch_single_asset_remove_liquidity_quote`: existence precondition
on the pre-refresh state, refresh, proportional remove, then the unwanted
side's payout is converted with `calculate_fixed_input_swap` whose supplies
are the reserves already reduced by both proportional payouts; an output
asset that is neither pool asset hits `assert False`. -/
def Pool.fetch_single_asset_remove_liquidity_quote (p : Pool) (info : Option PoolInfo)
    (pool_token_asset_in : AssetAmount) (output_asset : Asset) (slippage : Rat) :
    Except PoolsError SingleAssetRemoveLiquidityQuote :=
  if !p.pool_exists then .error .bootstrapIsRequired
  else
    let p' := p.refresh info
    match calculate_remove_liquidity_output_amounts pool_token_asset_in.amount
        (p'.asset_1_reserves.getD 0 : Int) (p'.asset_2_reserves.getD 0 : Int)
        (p'.issued_pool_tokens.getD 0 : Int) with
    | .error e => .error e
    | .ok (asset_1_output_amount, asset_2_output_amount) =>
      if output_asset = p'.asset_1 then
        let r := calculate_fixed_input_swap
          ((p'.asset_2_reserves.getD 0 : Int) - asset_2_output_amount)
          ((p'.asset_1_reserves.getD 0 : Int) - asset_1_output_amount)
          asset_2_output_amount (p'.total_fee_share.getD 0 : Int)
        .ok { amount_out := { asset := p'.asset_1,
                              amount := asset_1_output_amount + r.1 },
              pool_token_asset_amount := pool_token_asset_in,
              slippage := slippage,
              internal_swap_quote :=
                { amount_in := { asset := p'.asset_2, amount := asset_2_output_amount },
                  amount_out := { asset := p'.asset_1, amount := r.1 },
                  swap_fees := { asset := p'.asset_2, amount := r.2.1 },
                  price_impact := r.2.2 } }
      else if output_asset = p'.asset_2 then
        let r := calculate_fixed_input_swap
          ((p'.asset_1_reserves.getD 0 : Int) - asset_1_output_amount)
          ((p'.asset_2_reserves.getD 0 : Int) - asset_2_output_amount)
          asset_1_output_amount (p'.total_fee_share.getD 0 : Int)
        .ok { amount_out := { asset := p'.asset_2,
                              amount := asset_2_output_amount + r.1 },
              pool_token_asset_amount := pool_token_asset_in,
              slippage := slippage,
              internal_swap_quote :=
                { amount_in := { asset := p'.asset_1, amount := asset_1_output_amount },
                  amount_out := { asset := p'.asset_2, amount := r.1 },
                  swap_fees := { asset := p'.asset_1, amount := r.2.1 },
                  price_impact := r.2.2 } }
      else .error .assertionFailure

/-- `Pool.fetch_fixed_input_swap_quote`, translated with the source's
duplicated branch condition kept verbatim: the first branch tests
`amount_in.asset == self.asset_1` and the second branch tests
`amount_in.asset == self.asset_1` again, so the second branch is dead and an
input in `asset_2` falls through to `raise False`. -/
def Pool.fetch_fixed_input_swap_quote (p : Pool) (info : Option PoolInfo)
    (amount_in : AssetAmount) (slippage : Rat) : Except PoolsError SwapQuote :=
  let p' := p.refresh info
  if !p'.pool_exists then .error .bootstrapIsRequired
  else if p'.issued_pool_tokens.getD 0 = 0 then .error .poolHasNoLiquidity
  else
    let branch : Option (Asset × Int × Int) :=
      if amount_in.asset = p'.asset_1 then
        some (p'.asset_2, (p'.asset_1_reserves.getD 0 : Int),
              (p'.asset_2_reserves.getD 0 : Int))
      else if amount_in.asset = p'.asset_1 then
        some (p'.asset_1, (p'.asset_2_reserves.getD 0 : Int),
              (p'.asset_1_reserves.getD 0 : Int))
      else none
    match branch with
    | none => .error .raisedFalse
    | some (asset_out, input_supply, output_supply) =>
      let r := calculate_fixed_input_swap input_supply output_supply
        amount_in.amount (p'.total_fee_share.getD 0 : Int)
      .ok { swap_type := .fixedInput,
            amount_in := amount_in,
            amount_out := { asset := asset_out, amount := r.1 },
            swap_fees := { asset := amount_in.asset, amount := r.2.1 },
            slippage := slippage,
            price_impact := r.2.2 }

/-- `Pool.fetch_fixed_output_swap_quote`: refresh, the existence and
liquidity preconditions, then the branch on which pool asset the desired
output carries (this one tests `asset_2` correctly in its second branch),
then `calculate_fixed_output_swap`; an output asset foreign to the pool hits
`assert False`. -/
def Pool.fetch_fixed_output_swap_quote (p : Pool) (info : Option PoolInfo)
    (amount_out : AssetAmount) (slippage : Rat) : Except PoolsError SwapQuote :=
  let p' := p.refresh info
  if !p'.pool_exists then .error .bootstrapIsRequired
  else if p'.issued_pool_tokens.getD 0 = 0 then .error .poolHasNoLiquidity
  else
    let branch : Option (Asset × Int × Int) :=
      if amount_out.asset = p'.asset_1 then
        some (p'.asset_2, (p'.asset_2_reserves.getD 0 : Int),
              (p'.asset_1_reserves.getD 0 : Int))
      else if amount_out.asset = p'.asset_2 then
        some (p'.asset_1, (p'.asset_1_reserves.getD 0 : Int),
              (p'.asset_2_reserves.getD 0 : Int))
      else none
    match branch with
    | none => .error .assertionFailure
    | some (asset_in, input_supply, output_supply) =>
      match calculate_fixed_output_swap input_supply output_supply
          amount_out.amount (p'.total_fee_share.getD 0 : Int) with
      | .error e => .error e
      | .ok r =>
        .ok { swap_type := .fixedOutput,
              amount_in := { asset := asset_in, amount := r.1 },
              amount_out := amount_out,
              swap_fees := { asset := asset_in, amount := r.2.1 },
              slippage := slippage,
              price_impact := r.2.2 }

/-- `Pool.fetch_initial_add_liquidity_quote`: asset-pair assertion on the
inputs, then refresh, then the existence precondition, then the
already-has-liquidity precondition (`if self.issued_pool_tokens:` raises
`PoolAlreadyHasLiquidity`), then `calculate_initial_add_liquidity` and the
quote; the source constructs this quote without a slippage parameter. -/
def Pool.fetch_initial_add_liquidity_quote (p : Pool) (info : Option PoolInfo)
    (amount_a amount_b : AssetAmount) : Except PoolsError InitialAddLiquidityQuote :=
  if ({amount_a.asset, amount_b.asset} : Finset Asset) ≠ {p.asset_1, p.asset_2} then
    .error .assetMismatchAssertion
  else
    let amount_1 := if amount_a.asset = p.asset_1 then amount_a else amount_b
    let amount_2 := if amount_a.asset = p.asset_2 then amount_a else amount_b
    let p' := p.refresh info
    if !p'.pool_exists then .error .bootstrapIsRequired
    else if p'.issued_pool_tokens.getD 0 ≠ 0 then .error .poolAlreadyHasLiquidity
    else
      .ok { asset_1_amount_in := amount_1,
            asset_2_amount_in := amount_2,
            pool_token_asset_amount :=
              { asset := p'.pool_token_asset.getD { id := 0 },
                amount := calculate_initial_add_liquidity
                  amount_1.amount amount_2.amount } }

/-- Modelled from the spec: the protected upper bound for an amount the
participant must pay (quotes module, not under src).  Spec 4.3:
`ceil(raw * (1 + s))`. -/
def amount_with_slippage_up (amount : Int) (slippage : Rat) : Int :=
  ⌈(amount : Rat) * (1 + slippage)⌉

/-- Modelled from the spec: the protected lower bound for an amount the
participant receives (quotes module, not under src).  Spec 4.3:
`floor(raw * (1 - s))`. -/
def amount_with_slippage_down (amount : Int) (slippage : Rat) : Int :=
  ⌊(amount : Rat) * (1 - slippage)⌋

/-- Modelled from the spec: `SwapQuote.amount_in_with_slippage` (quotes
module, not under src).  The swap input is an amount the participant pays, so
it carries the pay bound. -/
def SwapQuote.amount_in_with_slippage (q : SwapQuote) : AssetAmount :=
  { asset := q.amount_in.asset,
    amount := amount_with_slippage_up q.amount_in.amount q.slippage }

/-- Modelled from the spec: `SwapQuote.amount_out_with_slippage` (quotes
module, not under src).  The swap output is an amount the participant
receives, so it carries the receive bound. -/
def SwapQuote.amount_out_with_slippage (q : SwapQuote) : AssetAmount :=
  { asset := q.amount_out.asset,
    amount := amount_with_slippage_down q.amount_out.amount q.slippage }

/-- `Pool.prepare_swap_transactions_from_quote` forwards the quote's
protected-bound amounts to the external transaction preparer; the transaction
construction itself is outside the engine, so the embedding returns the pair
of bound amounts that are handed over. -/
def Pool.prepare_swap_transactions_from_quote (q : SwapQuote) :
    AssetAmount × AssetAmount :=
  (q.amount_in_with_slippage, q.amount_out_with_slippage)

/-- Modelled from the spec: `get_state_int` (tinyman utils module, not under
src) reads one integer field of the decoded validator app state; the spec's
snapshot-source interface says the fields are integers. -/
def get_state_int (state : List (String × Nat)) (key : String) : Nat :=
  (state.lookup key).getD 0

/-- One entry of `account_info["apps-local-state"]`: the application id and
the decoded key-value store. -/
structure AppLocalState where
  app_id : Nat
  key_value : List (String × Nat)
deriving DecidableEq, Repr

/-- The account-info structure consumed by
`get_pool_info_from_account_info`: the local application states, the algo
balance (`amount`) and the ledger round. -/
structure AccountInfo where
  apps_local_state : List AppLocalState
  amount : Nat
  round : Nat
deriving DecidableEq, Repr

/-- `get_pool_info_from_account_info`: indexing `apps-local-state[0]` on an
account with no local state raises `IndexError`, which the function catches
and turns into the empty result; otherwise every snapshot field is decoded
with `get_state_int` from the first local state.  The pool-address assertion
uses the external contract-identity derivation (out of scope per the spec)
and the oracle byte fields are not part of the spec's snapshot structure, so
neither is modelled. -/
def get_pool_info_from_account_info (account_info : AccountInfo) : Option PoolInfo :=
  match account_info.apps_local_state with
  | [] => none
  | validator_app_state :: _ =>
    let s := validator_app_state.key_value
    some { asset_1_id := get_state_int s "asset_1_id",
           asset_2_id := get_state_int s "asset_2_id",
           pool_token_asset_id := some (get_state_int s "pool_token_asset_id"),
           asset_1_reserves := get_state_int s "asset_1_reserves",
           asset_2_reserves := get_state_int s "asset_2_reserves",
           issued_pool_tokens := get_state_int s "issued_pool_tokens",
           asset_1_protocol_fees := get_state_int s "asset_1_protocol_fees",
           asset_2_protocol_fees := get_state_int s "asset_2_protocol_fees",
           total_fee_share := get_state_int s "total_fee_share",
           protocol_fee_ratio := get_state_int s "protocol_fee_ratio",
           round := account_info.round,
           algo_balance := account_info.amount }

/-- Whether a fallible computation succeeded (used to state that a concrete
evaluation produced a quote rather than an error, without spelling out the
quote). -/
def isOkExcept {ε α : Type} (e : Except ε α) : Bool :=
  match e with
  | .ok _ => true
  | .error _ => false

instance instDecidableEqExcept {ε α : Type} [DecidableEq ε] [DecidableEq α] :
    DecidableEq (Except ε α) := fun a b =>
  match a, b with
  | .error x, .error y =>
    if h : x = y then .isTrue (h ▸ rfl) else .isFalse fun hc => h (Except.error.inj hc)
  | .ok x, .ok y =>
    if h : x = y then .isTrue (h ▸ rfl) else .isFalse fun hc => h (Except.ok.inj hc)
  | .error _, .ok _ => .isFalse fun hc => Except.noConfusion hc
  | .ok _, .error _ => .isFalse fun hc => Except.noConfusion hc

/-- A concrete Active pool (exists, positive issued tokens), used to evaluate
the operations at concrete inputs: asset ids 2 and 1 (canonical order),
reserves 1000000 and 2000000, fee share 3 (0.3 percent), matching the spec's
concrete scenario. -/
def active_pool : Pool :=
  { asset_1 := { id := 2 }, asset_2 := { id := 1 }, pool_exists := true,
    pool_token_asset := some { id := 10 },
    asset_1_reserves := some 1000000, asset_2_reserves := some 2000000,
    issued_pool_tokens := some 1000000,
    asset_1_protocol_fees := some 0, asset_2_protocol_fees := some 0,
    total_fee_share := some 3, protocol_fee_ratio := some 5,
    last_refreshed_round := some 1, algo_balance := some 0 }

/-- A concrete existing pool whose snapshot has zero issued pool tokens
(state BootstrappedEmpty). -/
def zero_liquidity_pool : Pool :=
  { active_pool with issued_pool_tokens := some 0 }

/-- A concrete pool as constructed before any successful refresh: the
snapshot source has not reported it, so it does not exist yet. -/
def empty_pool : Pool := Pool.make { id := 2 } { id := 1 }

/-- A concrete snapshot that would bootstrap `empty_pool` into the Active
state on refresh. -/
def bootstrap_info : PoolInfo :=
  { asset_1_id := 2, asset_2_id := 1, pool_token_asset_id := some 10,
    asset_1_reserves := 1000, asset_2_reserves := 2000,
    issued_pool_tokens := 100, asset_1_protocol_fees := 0,
    asset_2_protocol_fees := 0, total_fee_share := 3,
    protocol_fee_ratio := 5, round := 7, algo_balance := 0 }

/-- A concrete account-info with one application local state, for evaluating
the snapshot decoder. -/
def sample_account_info : AccountInfo :=
  { apps_local_state :=
      [{ app_id := 99,
         key_value := [("asset_1_id", 2), ("asset_2_id", 1),
                       ("pool_token_asset_id", 10), ("asset_1_reserves", 1000),
                       ("asset_2_reserves", 2000), ("issued_pool_tokens", 100),
                       ("asset_1_protocol_fees", 4), ("asset_2_protocol_fees", 6),
                       ("total_fee_share", 3), ("protocol_fee_ratio", 5)] }],
    amount := 123, round := 7 }

@[simp] theorem Pool.refresh_none (p : Pool) : p.refresh none = p := rfl

@[simp] theorem Pool.refresh_some (p : Pool) (i : PoolInfo) :
    p.refresh (some i) = p.update_from_info i := rfl

@[simp] theorem Pool.update_from_info_asset_1 (p : Pool) (i : PoolInfo) :
    (p.update_from_info i).asset_1 = p.asset_1 := rfl

@[simp] theorem Pool.update_from_info_asset_2 (p : Pool) (i : PoolInfo) :
    (p.update_from_info i).asset_2 = p.asset_2 := rfl

@[simp] theorem Pool.refresh_asset_1 (p : Pool) (i : Option PoolInfo) :
    (p.refresh i).asset_1 = p.asset_1 := by cases i <;> rfl

@[simp] theorem Pool.refresh_asset_2 (p : Pool) (i : Option PoolInfo) :
    (p.refresh i).asset_2 = p.asset_2 := by cases i <;> rfl

theorem Pool.pool_exists_refresh_mono (p : Pool) (i : Option PoolInfo)
    (h : p.pool_exists = true) : (p.refresh i).pool_exists = true := by
  cases i with
  | none => exact h
  | some info =>
    show (p.update_from_info info).pool_exists = true
    unfold Pool.update_from_info
    dsimp only
    split <;> simp [h]

/-- C10: when the snapshot source yields an empty result, `Pool.refresh`
leaves every snapshot field of the pool unchanged — the whole pool state is
exactly what it was, so no field is partially updated and the previous
snapshot remains in force. -/
theorem refresh_empty_result_is_frame (p : Pool) :
    p.refresh none = p ∧
    (p.refresh none).pool_exists = p.pool_exists ∧
    (p.refresh none).asset_1_reserves = p.asset_1_reserves ∧
    (p.refresh none).asset_2_reserves = p.asset_2_reserves ∧
    (p.refresh none).issued_pool_tokens = p.issued_pool_tokens ∧
    (p.refresh none).total_fee_share = p.total_fee_share ∧
    (p.refresh none).protocol_fee_ratio = p.protocol_fee_ratio ∧
    (p.refresh none).last_refreshed_round = p.last_refreshed_round ∧
    (p.refresh none).pool_token_asset = p.pool_token_asset :=
  ⟨rfl, rfl, rfl, rfl, rfl, rfl, rfl, rfl, rfl⟩

/-- C5: for a pair of assets with distinct ids supplied to the pool
constructor in either order, the constructed pool satisfies
`asset_1.id > asset_2.id`, both argument orders produce the same pool, and
neither `update_from_info` nor `refresh` ever changes `asset_1` or
`asset_2`. -/
theorem pool_asset_pair_canonical (asset_a asset_b : Asset)
    (h : asset_a.id ≠ asset_b.id) :
    (Pool.make asset_a asset_b).asset_1.id > (Pool.make asset_a asset_b).asset_2.id ∧
    Pool.make asset_a asset_b = Pool.make asset_b asset_a ∧
    (∀ (p : Pool) (i : PoolInfo),
      (p.update_from_info i).asset_1 = p.asset_1 ∧
      (p.update_from_info i).asset_2 = p.asset_2) ∧
    (∀ (p : Pool) (i : Option PoolInfo),
      (p.refresh i).asset_1 = p.asset_1 ∧ (p.refresh i).asset_2 = p.asset_2) := by
  refine ⟨?_, ?_, fun p i => ⟨rfl, rfl⟩,
    fun p i => ⟨Pool.refresh_asset_1 p i, Pool.refresh_asset_2 p i⟩⟩
  · unfold Pool.make
    rcases Nat.lt_or_gt_of_ne h with h1 | h1
    · rw [if_neg (by omega)]
      exact h1
    · rw [if_pos h1]
      exact h1
  · unfold Pool.make
    rcases Nat.lt_or_gt_of_ne h with h1 | h1
    · rw [if_neg (by omega), if_pos h1]
    · rw [if_pos h1, if_neg (by omega)]

/-- Witness for C5 at the concrete asset pair with ids 1 and 2. -/
theorem pool_asset_pair_canonical_witness :
    (Asset.mk 1).id ≠ (Asset.mk 2).id ∧
    ((Pool.make (Asset.mk 1) (Asset.mk 2)).asset_1.id >
        (Pool.make (Asset.mk 1) (Asset.mk 2)).asset_2.id ∧
      Pool.make (Asset.mk 1) (Asset.mk 2) = Pool.make (Asset.mk 2) (Asset.mk 1) ∧
      (∀ (p : Pool) (i : PoolInfo),
        (p.update_from_info i).asset_1 = p.asset_1 ∧
        (p.update_from_info i).asset_2 = p.asset_2) ∧
      (∀ (p : Pool) (i : Option PoolInfo),
        (p.refresh i).asset_1 = p.asset_1 ∧ (p.refresh i).asset_2 = p.asset_2)) :=
  ⟨by decide, pool_asset_pair_canonical (Asset.mk 1) (Asset.mk 2) (by decide)⟩

/-- C9: the snapshot decoder returns the empty result on an account-info
with no application local state (the unbootstrapped case), and on an
account-info with local state it returns the fully decoded snapshot with
every field read as an integer from the first local state. -/
theorem get_pool_info_from_account_info_cases (ai : AccountInfo) :
    (ai.apps_local_state = [] → get_pool_info_from_account_info ai = none) ∧
    (∀ st rest, ai.apps_local_state = st :: rest →
      get_pool_info_from_account_info ai =
        some { asset_1_id := get_state_int st.key_value "asset_1_id",
               asset_2_id := get_state_int st.key_value "asset_2_id",
               pool_token_asset_id := some (get_state_int st.key_value "pool_token_asset_id"),
               asset_1_reserves := get_state_int st.key_value "asset_1_reserves",
               asset_2_reserves := get_state_int st.key_value "asset_2_reserves",
               issued_pool_tokens := get_state_int st.key_value "issued_pool_tokens",
               asset_1_protocol_fees := get_state_int st.key_value "asset_1_protocol_fees",
               asset_2_protocol_fees := get_state_int st.key_value "asset_2_protocol_fees",
               total_fee_share := get_state_int st.key_value "total_fee_share",
               protocol_fee_ratio := get_state_int st.key_value "protocol_fee_ratio",
               round := ai.round,
               algo_balance := ai.amount }) := by
  constructor
  · intro h
    unfold get_pool_info_from_account_info
    rw [h]
  · intro st rest h
    unfold get_pool_info_from_account_info
    rw [h]

/-- Witness for C9 at a concrete account-info with one local state. -/
theorem get_pool_info_from_account_info_cases_witness :
    sample_account_info.apps_local_state =
      { app_id := 99,
        key_value := [("asset_1_id", 2), ("asset_2_id", 1),
                      ("pool_token_asset_id", 10), ("asset_1_reserves", 1000),
                      ("asset_2_reserves", 2000), ("issued_pool_tokens", 100),
                      ("asset_1_protocol_fees", 4), ("asset_2_protocol_fees", 6),
                      ("total_fee_share", 3), ("protocol_fee_ratio", 5)] } :: [] ∧
    get_pool_info_from_account_info sample_account_info =
      some { asset_1_id := 2, asset_2_id := 1, pool_token_asset_id := some 10,
             asset_1_reserves := 1000, asset_2_reserves := 2000,
             issued_pool_tokens := 100, asset_1_protocol_fees := 4,
             asset_2_protocol_fees := 6, total_fee_share := 3,
             protocol_fee_ratio := 5, round := 7, algo_balance := 123 } := by
  refine ⟨rfl, ?_⟩
  have h := (get_pool_info_from_account_info_cases sample_account_info).2 _ _ rfl
  rw [h]
  decide

/-- C7: the amounts the participant pays carry the protected upper bound
`ceil(raw * (1 + s))` and the amounts the participant receives carry the
protected lower bound `floor(raw * (1 - s))` (as handed to the transaction
preparer by `prepare_swap_transactions_from_quote`); with `s = 0` both bounds
equal the raw amount exactly; with `s = 1/20` and a raw receive amount of
1000 the lower bound is 950, so an execution yielding 950 meets the bound and
one yielding 949 falls below it. -/
theorem slippage_protected_bounds :
    (∀ q : SwapQuote,
      (Pool.prepare_swap_transactions_from_quote q).1.amount =
        ⌈(q.amount_in.amount : Rat) * (1 + q.slippage)⌉ ∧
      (Pool.prepare_swap_transactions_from_quote q).2.amount =
        ⌊(q.amount_out.amount : Rat) * (1 - q.slippage)⌋) ∧
    (∀ raw : Int,
      amount_with_slippage_up raw 0 = raw ∧ amount_with_slippage_down raw 0 = raw) ∧
    amount_with_slippage_down 1000 (1/20) = 950 ∧
    amount_with_slippage_down 1000 (1/20) ≤ 950 ∧
    949 < amount_with_slippage_down 1000 (1/20) := by
  have h950 : amount_with_slippage_down 1000 (1/20) = 950 := by
    unfold amount_with_slippage_down
    have : ((1000 : Int) : Rat) * (1 - 1/20) = (950 : Int) := by norm_num
    rw [this, Int.floor_intCast]
  refine ⟨fun q => ⟨rfl, rfl⟩, fun raw => ⟨?_, ?_⟩, h950, by rw [h950], by rw [h950]; norm_num⟩
  · unfold amount_with_slippage_up
    rw [add_zero, mul_one, Int.ceil_intCast]
  · unfold amount_with_slippage_down
    rw [sub_zero, mul_one, Int.floor_intCast]

/-- C1 (code bug): on the concrete Active pool, a fixed-input swap whose
input asset is the pool's `asset_2` does not produce a quote — the duplicated
branch condition makes the second branch dead and the input falls through to
`raise False` — while the same call with the input in `asset_1` does produce
a quote.  An input in an asset foreign to the pool lands on the very same
`raise False` path rather than a distinct asset-mismatch error. -/
theorem fixed_input_swap_asset_2_hits_dead_branch :
    Pool.fetch_fixed_input_swap_quote active_pool none
      { asset := { id := 1 }, amount := 10000 } 0 = .error .raisedFalse ∧
    active_pool.asset_2 = { id := 1 } ∧
    active_pool.pool_exists = true ∧
    active_pool.issued_pool_tokens = some 1000000 ∧
    isOkExcept (Pool.fetch_fixed_input_swap_quote active_pool none
      { asset := { id := 2 }, amount := 10000 } 0) = true ∧
    Pool.fetch_fixed_input_swap_quote active_pool none
      { asset := { id := 3 }, amount := 10000 } 0 = .error .raisedFalse := by
  refine ⟨rfl, rfl, rfl, rfl, ?_, rfl⟩
  decide

/-- C2 counterexample: on a concrete existing pool whose snapshot has zero
issued pool tokens, `fetch_remove_liquidity_quote` does not fail with the
distinct no-liquidity precondition error: it reaches the proportional-remove
division and fails with the division-by-zero arithmetic error instead. -/
theorem remove_liquidity_zero_issued_not_no_liquidity_error :
    Pool.fetch_remove_liquidity_quote zero_liquidity_pool none
      { asset := { id := 10 }, amount := 100 } 0 = .error .divisionByZero ∧
    decide (Pool.fetch_remove_liquidity_quote zero_liquidity_pool none
      { asset := { id := 10 }, amount := 100 } 0 = .error .poolHasNoLiquidity) = false ∧
    zero_liquidity_pool.pool_exists = true ∧
    zero_liquidity_pool.issued_pool_tokens = some 0 := by
  refine ⟨rfl, ?_, rfl, rfl⟩
  decide

/-- C2 as amended: for every existing pool whose refreshed snapshot has zero
issued pool tokens, `fetch_remove_liquidity_quote` fails — but with the
division-by-zero arithmetic error raised by the proportional-remove division,
not with the no-liquidity precondition error (the operation performs no
no-liquidity check). -/
theorem remove_liquidity_zero_issued_division_error (p : Pool)
    (info : Option PoolInfo) (amt : AssetAmount) (s : Rat)
    (h1 : p.pool_exists = true)
    (h2 : (p.refresh info).issued_pool_tokens.getD 0 = 0) :
    p.fetch_remove_liquidity_quote info amt s = .error .divisionByZero := by
  unfold Pool.fetch_remove_liquidity_quote
  rw [h1]
  simp only [Bool.not_true, Bool.false_eq_true, if_false]
  unfold calculate_remove_liquidity_output_amounts
  rw [if_pos (by rw [h2]; rfl)]

/-- Witness for the amended C2 at the concrete zero-liquidity pool. -/
theorem remove_liquidity_zero_issued_division_error_witness :
    zero_liquidity_pool.pool_exists = true ∧
    (zero_liquidity_pool.refresh none).issued_pool_tokens.getD 0 = 0 ∧
    Pool.fetch_remove_liquidity_quote zero_liquidity_pool none
      { asset := { id := 10 }, amount := 50 } 0 = .error .divisionByZero :=
  ⟨rfl, rfl, remove_liquidity_zero_issued_division_error zero_liquidity_pool none
    { asset := { id := 10 }, amount := 50 } 0 rfl rfl⟩

/-- C8 counterexample: `fetch_remove_liquidity_quote` evaluates the
existence precondition before refreshing.  On a concrete unbootstrapped pool
whose snapshot source would report a bootstrapped Active state, the operation
fails with the bootstrap-required error even though the refreshed snapshot
exists — so the order is not refresh first for every quote operation. -/
theorem remove_liquidity_checks_before_refresh :
    Pool.fetch_remove_liquidity_quote empty_pool (some bootstrap_info)
      { asset := { id := 10 }, amount := 10 } 0 = .error .bootstrapIsRequired ∧
    (empty_pool.refresh (some bootstrap_info)).pool_exists = true ∧
    decide (Pool.fetch_remove_liquidity_quote
      (empty_pool.refresh (some bootstrap_info)) none
      { asset := { id := 10 }, amount := 10 } 0 = .error .bootstrapIsRequired) = false := by
  refine ⟨rfl, rfl, ?_⟩
  decide

/-- C8 as amended: the swap quote operations (fixed-input and fixed-output)
and the add-liquidity quote operations (flexible, single-asset and initial)
refresh the snapshot before evaluating their state preconditions (running
them on a pre-refresh pool with the source's snapshot equals running them on
the already-refreshed pool with an empty source), and every operation
refreshes before its formula call; but the two remove-liquidity quote
operations evaluate the existence precondition on the pre-refresh state and
only then refresh. -/
theorem quote_operations_refresh_order (p : Pool) (info : Option PoolInfo)
    (a b amt : AssetAmount) (oa : Asset) (s : Rat) :
    (p.fetch_fixed_input_swap_quote info a s =
      (p.refresh info).fetch_fixed_input_swap_quote none a s) ∧
    (p.fetch_fixed_output_swap_quote info a s =
      (p.refresh info).fetch_fixed_output_swap_quote none a s) ∧
    (p.fetch_flexible_add_liquidity_quote info a b s =
      (p.refresh info).fetch_flexible_add_liquidity_quote none a b s) ∧
    (p.fetch_single_asset_add_liquidity_quote info a s =
      (p.refresh info).fetch_single_asset_add_liquidity_quote none a s) ∧
    (p.fetch_initial_add_liquidity_quote info a b =
      (p.refresh info).fetch_initial_add_liquidity_quote none a b) ∧
    (p.pool_exists = true → p.fetch_remove_liquidity_quote info amt s =
      (p.refresh info).fetch_remove_liquidity_quote none amt s) ∧
    (p.pool_exists = false →
      p.fetch_remove_liquidity_quote info amt s = .error .bootstrapIsRequired) ∧
    (p.pool_exists = true → p.fetch_single_asset_remove_liquidity_quote info amt oa s =
      (p.refresh info).fetch_single_asset_remove_liquidity_quote none amt oa s) ∧
    (p.pool_exists = false →
      p.fetch_single_asset_remove_liquidity_quote info amt oa s = .error .bootstrapIsRequired) := by
  refine ⟨?_, ?_, ?_, ?_, ?_, ?_, ?_, ?_, ?_⟩
  · cases info <;> rfl
  · cases info <;> rfl
  · cases info <;> rfl
  · cases info <;> rfl
  · cases info <;> rfl
  · intro h
    have h2 := Pool.pool_exists_refresh_mono p info h
    unfold Pool.fetch_remove_liquidity_quote
    rw [h, h2, Pool.refresh_none]
  · intro h
    unfold Pool.fetch_remove_liquidity_quote
    rw [h]
    rfl
  · intro h
    have h2 := Pool.pool_exists_refresh_mono p info h
    unfold Pool.fetch_single_asset_remove_liquidity_quote
    rw [h, h2, Pool.refresh_none]
  · intro h
    unfold Pool.fetch_single_asset_remove_liquidity_quote
    rw [h]
    rfl

/-- Witness for the amended C8: the refresh-first equations for the
fixed-input and fixed-output swap quotes and the initial-add quote at a
concrete pool, the remove-liquidity equation under the existence
precondition discharged at the concrete Active pool, and the pre-refresh
failure discharged at the concrete unbootstrapped pool. -/
theorem quote_operations_refresh_order_witness :
    (Pool.fetch_fixed_input_swap_quote active_pool (some bootstrap_info)
      { asset := { id := 2 }, amount := 100 } 0 =
      Pool.fetch_fixed_input_swap_quote (active_pool.refresh (some bootstrap_info)) none
      { asset := { id := 2 }, amount := 100 } 0) ∧
    (Pool.fetch_fixed_output_swap_quote active_pool (some bootstrap_info)
      { asset := { id := 2 }, amount := 100 } 0 =
      Pool.fetch_fixed_output_swap_quote (active_pool.refresh (some bootstrap_info)) none
      { asset := { id := 2 }, amount := 100 } 0) ∧
    (Pool.fetch_initial_add_liquidity_quote active_pool (some bootstrap_info)
      { asset := { id := 2 }, amount := 100 } { asset := { id := 1 }, amount := 0 } =
      Pool.fetch_initial_add_liquidity_quote (active_pool.refresh (some bootstrap_info)) none
      { asset := { id := 2 }, amount := 100 } { asset := { id := 1 }, amount := 0 }) ∧
    (Pool.fetch_remove_liquidity_quote active_pool none
      { asset := { id := 10 }, amount := 10 } 0 =
      Pool.fetch_remove_liquidity_quote (active_pool.refresh none) none
      { asset := { id := 10 }, amount := 10 } 0) ∧
    Pool.fetch_remove_liquidity_quote empty_pool none
      { asset := { id := 10 }, amount := 10 } 0 = .error .bootstrapIsRequired :=
  ⟨(quote_operations_refresh_order active_pool (some bootstrap_info)
      { asset := { id := 2 }, amount := 100 } { asset := { id := 1 }, amount := 0 }
      { asset := { id := 10 }, amount := 10 } { id := 2 } 0).1,
   (quote_operations_refresh_order active_pool (some bootstrap_info)
      { asset := { id := 2 }, amount := 100 } { asset := { id := 1 }, amount := 0 }
      { asset := { id := 10 }, amount := 10 } { id := 2 } 0).2.1,
   (quote_operations_refresh_order active_pool (some bootstrap_info)
      { asset := { id := 2 }, amount := 100 } { asset := { id := 1 }, amount := 0 }
      { asset := { id := 10 }, amount := 10 } { id := 2 } 0).2.2.2.2.1,
   (quote_operations_refresh_order active_pool none
      { asset := { id := 2 }, amount := 100 } { asset := { id := 1 }, amount := 0 }
      { asset := { id := 10 }, amount := 10 } { id := 2 } 0).2.2.2.2.2.1 rfl,
   (quote_operations_refresh_order empty_pool none
      { asset := { id := 2 }, amount := 100 } { asset := { id := 1 }, amount := 0 }
      { asset := { id := 10 }, amount := 10 } { id := 2 } 0).2.2.2.2.2.2.1 rfl⟩

/-- C4: `fetch_flexible_add_liquidity_quote` fails with the asset-mismatch
assertion whenever the supplied pair of amounts does not cover exactly the
pool's two assets; when the pair matches, it fails with the distinct
bootstrap-required error exactly when the refreshed pool does not exist, and
with the distinct no-liquidity error exactly when the refreshed pool exists
but has zero issued pool tokens — in every error case no quote is built from
`calculate_subsequent_add_liquidity`. -/
theorem flexible_add_liquidity_preconditions (p : Pool) (info : Option PoolInfo)
    (a b : AssetAmount) (s : Rat) :
    (({a.asset, b.asset} : Finset Asset) ≠ {p.asset_1, p.asset_2} →
      p.fetch_flexible_add_liquidity_quote info a b s = .error .assetMismatchAssertion) ∧
    (({a.asset, b.asset} : Finset Asset) = {p.asset_1, p.asset_2} →
      ((p.fetch_flexible_add_liquidity_quote info a b s = .error .bootstrapIsRequired ↔
        (p.refresh info).pool_exists = false) ∧
       (p.fetch_flexible_add_liquidity_quote info a b s = .error .poolHasNoLiquidity ↔
        (p.refresh info).pool_exists = true ∧
          (p.refresh info).issued_pool_tokens.getD 0 = 0))) := by
  constructor
  · intro h
    unfold Pool.fetch_flexible_add_liquidity_quote
    rw [if_pos h]
  · intro h
    unfold Pool.fetch_flexible_add_liquidity_quote
    rw [if_neg (not_not_intro h)]
    by_cases he : (p.refresh info).pool_exists = true
    · by_cases hi : (p.refresh info).issued_pool_tokens.getD 0 = 0
      · simp [he, hi]
      · simp [he, hi]
    · simp [Bool.not_eq_true] at he
      simp [he]

/-- Witness for C4: at the concrete Active pool the asset-mismatch case and
both exactly-when characterisations are discharged on concrete inputs. -/
theorem flexible_add_liquidity_preconditions_witness :
    (({(Asset.mk 2 : Asset), Asset.mk 7} : Finset Asset) ≠
      {active_pool.asset_1, active_pool.asset_2} ∧
     Pool.fetch_flexible_add_liquidity_quote active_pool none
       { asset := { id := 2 }, amount := 5 } { asset := { id := 7 }, amount := 5 } 0 =
       .error .assetMismatchAssertion) ∧
    (({(Asset.mk 2 : Asset), Asset.mk 1} : Finset Asset) =
      {active_pool.asset_1, active_pool.asset_2} ∧
     (Pool.fetch_flexible_add_liquidity_quote active_pool none
        { asset := { id := 2 }, amount := 5 } { asset := { id := 1 }, amount := 5 } 0 =
        .error .bootstrapIsRequired ↔
      (active_pool.refresh none).pool_exists = false)) := by
  have hmm : (({(Asset.mk 2 : Asset), Asset.mk 7} : Finset Asset) ≠
      {active_pool.asset_1, active_pool.asset_2}) := by decide
  have hok : (({(Asset.mk 2 : Asset), Asset.mk 1} : Finset Asset) =
      {active_pool.asset_1, active_pool.asset_2}) := by decide
  exact ⟨⟨hmm, (flexible_add_liquidity_preconditions active_pool none
      { asset := { id := 2 }, amount := 5 } { asset := { id := 7 }, amount := 5 } 0).1 hmm⟩,
    ⟨hok, ((flexible_add_liquidity_preconditions active_pool none
      { asset := { id := 2 }, amount := 5 } { asset := { id := 1 }, amount := 5 } 0).2 hok).1⟩⟩

/-- C3: for an existing pool with liquidity, the single-asset remove quote's
`amount_out` equals the desired asset's proportional payout plus the output
of a fixed-input swap converting the unwanted asset's proportional payout
into the desired asset, where the swap's input and output supplies are the
pool reserves already reduced by the respective proportional payouts. -/
theorem single_asset_remove_is_proportional_plus_swap (p : Pool)
    (info : Option PoolInfo) (ptin : AssetAmount) (oa : Asset) (s : Rat)
    (he : p.pool_exists = true)
    (hi : ¬((p.refresh info).issued_pool_tokens.getD 0 = 0))
    (hoa : oa = p.asset_1 ∨ oa = p.asset_2)
    (hne : p.asset_1 ≠ p.asset_2) :
    ∃ q : SingleAssetRemoveLiquidityQuote,
      p.fetch_single_asset_remove_liquidity_quote info ptin oa s = .ok q ∧
      (let p' := p.refresh info
       let r1 : Int := p'.asset_1_reserves.getD 0
       let r2 : Int := p'.asset_2_reserves.getD 0
       let issued : Int := p'.issued_pool_tokens.getD 0
       let o1 := Int.fdiv (r1 * ptin.amount) issued
       let o2 := Int.fdiv (r2 * ptin.amount) issued
       if oa = p.asset_1 then
         q.amount_out.asset = p.asset_1 ∧
         q.amount_out.amount = o1 +
           (calculate_fixed_input_swap (r2 - o2) (r1 - o1) o2
             (p'.total_fee_share.getD 0 : Int)).1
       else
         q.amount_out.asset = p.asset_2 ∧
         q.amount_out.amount = o2 +
           (calculate_fixed_input_swap (r1 - o1) (r2 - o2) o1
             (p'.total_fee_share.getD 0 : Int)).1) := by
  have hInt : ¬(((p.refresh info).issued_pool_tokens.getD 0 : Int) = 0) := by
    exact_mod_cast hi
  rcases hoa with ha | ha
  · unfold Pool.fetch_single_asset_remove_liquidity_quote
      calculate_remove_liquidity_output_amounts
    simp only [he, Bool.not_true, Bool.false_eq_true, if_false,
      Pool.refresh_asset_1, Pool.refresh_asset_2, if_neg hInt, ha,
      ite_true, ite_false]
    refine ⟨_, rfl, ?_⟩
    exact ⟨rfl, rfl⟩
  · unfold Pool.fetch_single_asset_remove_liquidity_quote
      calculate_remove_liquidity_output_amounts
    simp only [he, Bool.not_true, Bool.false_eq_true, if_false,
      Pool.refresh_asset_1, Pool.refresh_asset_2, if_neg hInt, ha,
      Ne.symm hne, ite_true, ite_false]
    refine ⟨_, rfl, ?_⟩
    exact ⟨rfl, rfl⟩

/-- Witness for C3 at the concrete Active pool, burning 1000 pool tokens for
the pool's `asset_1`. -/
theorem single_asset_remove_is_proportional_plus_swap_witness :
    active_pool.pool_exists = true ∧
    ¬((active_pool.refresh none).issued_pool_tokens.getD 0 = 0) ∧
    ((Asset.mk 2 : Asset) = active_pool.asset_1 ∨
      (Asset.mk 2 : Asset) = active_pool.asset_2) ∧
    active_pool.asset_1 ≠ active_pool.asset_2 ∧
    isOkExcept (Pool.fetch_single_asset_remove_liquidity_quote active_pool none
      { asset := { id := 10 }, amount := 1000 } (Asset.mk 2) 0) = true := by
  obtain ⟨q, hq, _⟩ := single_asset_remove_is_proportional_plus_swap active_pool none
    { asset := { id := 10 }, amount := 1000 } (Asset.mk 2) 0 rfl (by decide)
    (Or.inl rfl) (by decide)
  exact ⟨rfl, by decide, Or.inl rfl, by decide, by rw [hq]; rfl⟩

/-- C6: for an Active pool and an amount in one of the pool's two assets,
the single-asset add quote mints exactly the pool-token amount and carries
exactly the internal swap quote of `calculate_subsequent_add_liquidity`
invoked with the other side's amount equal to zero — equivalently, of the
flexible-add computation applied to the input amount paired with a zero
amount of the other pool asset. -/
theorem single_asset_add_is_flexible_add_with_zero (p : Pool)
    (info : Option PoolInfo) (a : AssetAmount) (s : Rat)
    (hne : p.asset_1 ≠ p.asset_2)
    (ha : a.asset = p.asset_1 ∨ a.asset = p.asset_2)
    (he : (p.refresh info).pool_exists = true)
    (hi : ¬((p.refresh info).issued_pool_tokens.getD 0 = 0)) :
    ∃ (q1 : SingleAssetAddLiquidityQuote) (q2 : FlexibleAddLiquidityQuote),
      p.fetch_single_asset_add_liquidity_quote info a s = .ok q1 ∧
      p.fetch_flexible_add_liquidity_quote info a
        { asset := if a.asset = p.asset_1 then p.asset_2 else p.asset_1,
          amount := 0 } s = .ok q2 ∧
      q1.pool_token_asset_amount = q2.pool_token_asset_amount ∧
      q1.internal_swap_quote = q2.internal_swap_quote ∧
      q1.pool_token_asset_amount.amount =
        (if a.asset = p.asset_1 then
          calculate_subsequent_add_liquidity
            ((p.refresh info).asset_1_reserves.getD 0 : Int)
            ((p.refresh info).asset_2_reserves.getD 0 : Int)
            ((p.refresh info).issued_pool_tokens.getD 0 : Int)
            ((p.refresh info).total_fee_share.getD 0 : Int) a.amount 0
         else
          calculate_subsequent_add_liquidity
            ((p.refresh info).asset_1_reserves.getD 0 : Int)
            ((p.refresh info).asset_2_reserves.getD 0 : Int)
            ((p.refresh info).issued_pool_tokens.getD 0 : Int)
            ((p.refresh info).total_fee_share.getD 0 : Int) 0 a.amount).1 := by
  rcases ha with ha | ha
  · unfold Pool.fetch_single_asset_add_liquidity_quote
      Pool.fetch_flexible_add_liquidity_quote
    simp only [he, Bool.not_true, Bool.false_eq_true, if_false, hi,
      Pool.refresh_asset_1, Pool.refresh_asset_2, ha, hne, Ne.symm hne,
      ne_eq, not_true, not_true_eq_false, not_false_eq_true,
      ite_true, ite_false]
    exact ⟨_, _, rfl, rfl, rfl, rfl, rfl⟩
  · unfold Pool.fetch_single_asset_add_liquidity_quote
      Pool.fetch_flexible_add_liquidity_quote
    simp only [he, Bool.not_true, Bool.false_eq_true, if_false, hi,
      Pool.refresh_asset_1, Pool.refresh_asset_2, ha, hne, Ne.symm hne,
      ne_eq, Finset.pair_comm, not_true, not_true_eq_false, not_false_eq_true,
      ite_true, ite_false]
    exact ⟨_, _, rfl, rfl, rfl, rfl, rfl⟩

/-- Witness for C6 at the concrete Active pool, depositing 500 of the
pool's `asset_1`. -/
theorem single_asset_add_is_flexible_add_with_zero_witness :
    active_pool.asset_1 ≠ active_pool.asset_2 ∧
    ((Asset.mk 2 : Asset) = active_pool.asset_1 ∨
      (Asset.mk 2 : Asset) = active_pool.asset_2) ∧
    (active_pool.refresh none).pool_exists = true ∧
    ¬((active_pool.refresh none).issued_pool_tokens.getD 0 = 0) ∧
    isOkExcept (Pool.fetch_single_asset_add_liquidity_quote active_pool none
      { asset := { id := 2 }, amount := 500 } 0) = true := by
  obtain ⟨q1, q2, h1, h2, _⟩ := single_asset_add_is_flexible_add_with_zero
    active_pool none { asset := { id := 2 }, amount := 500 } 0 (by decide)
    (Or.inl rfl) rfl (by decide)
  exact ⟨by decide, Or.inl rfl, rfl, by decide, by rw [h1]; rfl⟩

end TinymanV2
